import Mathlib

/-!
Shallow embedding of `src/backbone.linkview.js` (a Backbone `LinkView`:
a clickable link element that tracks the router's current fragment).

Modelling conventions:
* A configuration field typed `String|Function` in the source becomes `Opt Env`:
  `null`, a literal string, or a function.  In JavaScript an option function is
  invoked by `_.result(this, key)` with the widget as `this`; the function may
  also read ambient state (closures over the outside world).  We therefore give
  option functions the type `Env → Core → String`: the abstract call-time
  environment `Env` plus the widget's mutable state `Core` (its element and the
  `_isActive` flag).  Every operation that resolves options takes the `env` of
  the moment it runs, so "resolved at call time" is visible in the types.
* The DOM element is modelled by its observable pieces the code touches:
  its content (set by jQuery `.text(...)` or `.html(...)`) and its class list
  (jQuery `addClass` / `removeClass`; `addClass` on a class already present is
  a no-op, and both are no-ops on a `null` class argument).
* `Backbone.history` is modelled by the current fragment (an input to
  `_onRoute`) and a log of `navigate(fragment, {trigger})` requests.
* `this._isActive` starts out `undefined` in JavaScript (the constructor never
  initialises it); we model the field as `Option Bool` with `none` for
  `undefined`, and `jsTruthy` for the `!!x` / `if (x)` coercions.
-/

namespace BackboneLinkView

/-- JavaScript truthiness of a value that is either `undefined` (`none`) or a
boolean, as used by `!!this._isActive` and `if (this._isActive)`. -/
def jsTruthy : Option Bool → Bool
  | Option.none => false
  | some b => b

/-- Content of the backing DOM element: untouched, text set via
`$el.text(...)`, or markup set via `$el.html(...)`. -/
inductive Content where
  | empty : Content
  | text (s : String) : Content
  | html (s : String) : Content
deriving DecidableEq

/-- The observable state of the widget's element: its content and its CSS
class list. -/
structure ElementState where
  content : Content
  classes : List String
deriving DecidableEq

/-- The widget's mutable state: its element and the internal `_isActive`
flag (`none` models the initial `undefined`). -/
structure Core where
  el : ElementState
  _isActive : Option Bool
deriving DecidableEq

/-- A `String|Function` option field of the view: `null`, a literal string, or
a function.  A function receives the call-time environment and the widget's
state, mirroring `_.result(this, key)` invoking it with the widget as
context. -/
inductive Opt (Env : Type) where
  | null : Opt Env
  | lit (s : String) : Opt Env
  | fn (f : Env → Core → String) : Opt Env

variable {Env : Type}

/-- `_.result(this, key)`: a function value is invoked (with the widget as
context), a literal passes through unchanged, `null` stays `null`. -/
def Opt.result (env : Env) (c : Core) : Opt Env → Option String
  | Opt.null => Option.none
  | Opt.lit s => some s
  | Opt.fn f => some (f env c)

/-- JavaScript truthiness of an option field as tested by `if (this.textContent)`:
`null` and the empty string are falsy; any other string and any function are
truthy. -/
def Opt.truthy : Opt Env → Bool
  | Opt.null => false
  | Opt.lit s => decide (s ≠ "")
  | Opt.fn _ => true

/-- The `LinkView` widget: its mutable state plus the five recognised options
(`linkViewOptions` in the source).  `template` is documented as
`@type {Function}` in the source and is invoked directly as `this.template()`,
so it is modelled as an optional function. -/
structure LinkView (Env : Type) where
  core : Core
  href : Opt Env
  activeClass : Opt Env
  textContent : Opt Env
  innerHTML : Opt Env
  template : Option (Env → Core → String)

/-- The object returned by `attributes()`; Backbone copies it onto the
element's attributes. -/
structure Attrs where
  href : Option String
deriving DecidableEq

/-- `attributes()`: `{ href: _.result(this, 'href') }`. -/
def attributes (env : Env) (w : LinkView Env) : Attrs :=
  { href := Opt.result env w.core w.href }

/-- `isActive()`: `!!this._isActive`. -/
def isActive (w : LinkView Env) : Bool :=
  jsTruthy w.core._isActive

/-- The options object passed to the constructor: each recognised key may be
present (overriding the prototype default) or absent.  Unrecognised keys are
dropped by `_.pick(options, linkViewOptions)` and so are not modelled. -/
structure CtorOptions (Env : Type) where
  href : Option (Opt Env)
  activeClass : Option (Opt Env)
  textContent : Option (Opt Env)
  innerHTML : Option (Opt Env)
  template : Option (Option (Env → Core → String))

/-- The constructor: `_.extend(this, _.pick(options, linkViewOptions))` lays the
supplied options over the prototype defaults (`href: null`,
`activeClass: 'active'`, `textContent: null`, `innerHTML: null`,
`template: null`).  `_isActive` is never initialised, so it starts
`undefined`; the element starts with no content set and no classes.  The
subscription to `Backbone.history`'s `route` event is modelled by `_onRoute`
being the route-notification transition below. -/
def LinkView.create (opts : CtorOptions Env) : LinkView Env :=
  { core := { el := { content := Content.empty, classes := [] },
              _isActive := Option.none },
    href := opts.href.getD Opt.null,
    activeClass := opts.activeClass.getD (Opt.lit "active"),
    textContent := opts.textContent.getD Opt.null,
    innerHTML := opts.innerHTML.getD Opt.null,
    template := opts.template.getD Option.none }

/-- jQuery `addClass`: adds the class unless already present; a `null` class
argument is a no-op. -/
def addClass (cls : Option String) (cs : List String) : List String :=
  match cls with
  | Option.none => cs
  | some c => if c ∈ cs then cs else cs ++ [c]

/-- jQuery `removeClass`: removes the class; a `null` class argument is a
no-op. -/
def removeClass (cls : Option String) (cs : List String) : List String :=
  match cls with
  | Option.none => cs
  | some c => cs.filter (fun x => x ≠ c)

/-- `render()`: sets `$el.text(_.result(this, 'textContent'))` if
`this.textContent` is truthy; else `$el.html(_.result(this, 'innerHTML'))` if
`this.innerHTML` is truthy; else `$el.html(this.template())` if
`this.template` is set; else does nothing.  Returns `this`, modelled by
returning the (possibly content-updated) widget.  The `.getD ""` defaults are
unreachable: a truthy option always resolves to `some` string. -/
def render (env : Env) (w : LinkView Env) : LinkView Env :=
  if w.textContent.truthy then
    { w with core.el.content := Content.text ((Opt.result env w.core w.textContent).getD "") }
  else if w.innerHTML.truthy then
    { w with core.el.content := Content.html ((Opt.result env w.core w.innerHTML).getD "") }
  else
    match w.template with
    | some f => { w with core.el.content := Content.html (f env w.core) }
    | Option.none => w

/-- A DOM click event, modelled by the one bit the handler touches. -/
structure ClickEvent where
  defaultPrevented : Bool
deriving DecidableEq

/-- The router/history collaborator as the handler uses it: a log of
`navigate(fragment, {trigger})` requests. -/
structure HistoryState where
  navigations : List (Option String × Bool)
deriving DecidableEq

/-- `_onClick(e)`: `e.preventDefault()` then
`Backbone.history.navigate(_.result(this, 'href'), {trigger: true})`.
The handler never mutates the widget, so the widget is returned unchanged. -/
def _onClick (env : Env) (w : LinkView Env) (e : ClickEvent) (h : HistoryState) :
    LinkView Env × ClickEvent × HistoryState :=
  (w,
   { e with defaultPrevented := true },
   { h with navigations :=
       h.navigations ++ [(Opt.result env w.core w.href, true)] })

/-- `_onRoute()`: reads the current fragment (`route`), resolves `href` and
`activeClass`, then:
`if (route === href && !this._isActive)` activate and add the class,
`else if (this._isActive)` deactivate and remove the class. -/
def _onRoute (env : Env) (route : String) (w : LinkView Env) : LinkView Env :=
  let href := Opt.result env w.core w.href
  let activeClass := Opt.result env w.core w.activeClass
  if (href == some route) && !(jsTruthy w.core._isActive) then
    { w with
      core._isActive := some true,
      core.el.classes := addClass activeClass w.core.el.classes }
  else if jsTruthy w.core._isActive then
    { w with
      core._isActive := some false,
      core.el.classes := removeClass activeClass w.core.el.classes }
  else
    w

/-! ## Helper lemmas characterising the operations by cases -/

/-- When `textContent` is truthy, `render` sets the element text to the
resolved `textContent`. -/
theorem render_content_of_textContent (env : Env) (w : LinkView Env)
    (h : w.textContent.truthy = true) :
    (render env w).core.el.content =
      Content.text ((Opt.result env w.core w.textContent).getD "") := by
  unfold render
  simp [h]

/-- When `textContent` is falsy and `innerHTML` is truthy, `render` sets the
element markup to the resolved `innerHTML`. -/
theorem render_content_of_innerHTML (env : Env) (w : LinkView Env)
    (h1 : w.textContent.truthy = false) (h2 : w.innerHTML.truthy = true) :
    (render env w).core.el.content =
      Content.html ((Opt.result env w.core w.innerHTML).getD "") := by
  unfold render
  simp [h1, h2]

/-- When `textContent` and `innerHTML` are falsy and `template` is set,
`render` sets the element markup to the template output. -/
theorem render_content_of_template (env : Env) (w : LinkView Env)
    (h1 : w.textContent.truthy = false) (h2 : w.innerHTML.truthy = false)
    (f : Env → Core → String) (hf : w.template = some f) :
    (render env w).core.el.content = Content.html (f env w.core) := by
  unfold render
  simp [h1, h2, hf]

/-- When none of the three content options is set, `render` is the
identity. -/
theorem render_of_none (env : Env) (w : LinkView Env)
    (h1 : w.textContent.truthy = false) (h2 : w.innerHTML.truthy = false)
    (h3 : w.template = Option.none) :
    render env w = w := by
  unfold render
  simp [h1, h2, h3]

/-- `render` changes nothing but the element content: every option field, the
`_isActive` flag and the class list are untouched. -/
theorem render_frame_fields (env : Env) (w : LinkView Env) :
    (render env w).href = w.href ∧
    (render env w).activeClass = w.activeClass ∧
    (render env w).textContent = w.textContent ∧
    (render env w).innerHTML = w.innerHTML ∧
    (render env w).template = w.template ∧
    (render env w).core._isActive = w.core._isActive ∧
    (render env w).core.el.classes = w.core.el.classes := by
  unfold render
  split
  · exact ⟨rfl, rfl, rfl, rfl, rfl, rfl, rfl⟩
  · split
    · exact ⟨rfl, rfl, rfl, rfl, rfl, rfl, rfl⟩
    · split
      · exact ⟨rfl, rfl, rfl, rfl, rfl, rfl, rfl⟩
      · exact ⟨rfl, rfl, rfl, rfl, rfl, rfl, rfl⟩

/-- Route notification while inactive and matching: the widget activates and
gains the resolved active class. -/
theorem onRoute_activate (env : Env) (route : String) (w : LinkView Env)
    (h1 : Opt.result env w.core w.href = some route)
    (h2 : jsTruthy w.core._isActive = false) :
    _onRoute env route w =
      { w with
        core._isActive := some true,
        core.el.classes :=
          addClass (Opt.result env w.core w.activeClass) w.core.el.classes } := by
  unfold _onRoute
  simp [h1, h2]

/-- Route notification while active: the widget always deactivates and loses
the resolved active class — the source's `else if (this._isActive)` branch has
no `route !== href` guard, so this happens whether or not the fragment matches
the resolved href. -/
theorem onRoute_of_active (env : Env) (route : String) (w : LinkView Env)
    (h1 : jsTruthy w.core._isActive = true) :
    _onRoute env route w =
      { w with
        core._isActive := some false,
        core.el.classes :=
          removeClass (Opt.result env w.core w.activeClass) w.core.el.classes } := by
  unfold _onRoute
  simp [h1]

/-- Route notification while inactive and non-matching: nothing happens. -/
theorem onRoute_noop (env : Env) (route : String) (w : LinkView Env)
    (h1 : jsTruthy w.core._isActive = false)
    (h2 : Opt.result env w.core w.href ≠ some route) :
    _onRoute env route w = w := by
  unfold _onRoute
  simp [h1, h2]

/-! ## Concrete fixtures used by witnesses and counterexamples -/

/-- A function-valued href, as in the spec's example `href: () => 'contact'`. -/
def contactFn : Nat → Core → String := fun _ _ => "contact"

/-- A function-valued activeClass. -/
def classFn : Nat → Core → String := fun _ _ => "current"

/-- A template function. -/
def tplFn : Nat → Core → String := fun _ _ => "T"

/-- A fresh widget constructed with `href: 'about'` and no other options. -/
def aboutWidget : LinkView Nat :=
  LinkView.create
    { href := some (Opt.lit "about"), activeClass := Option.none,
      textContent := Option.none, innerHTML := Option.none, template := Option.none }

/-- A widget with `href: 'about'` that is currently active and carries the
class `active`. -/
def activeAboutWidget : LinkView Nat :=
  { core := { el := { content := Content.empty, classes := ["active"] },
              _isActive := some true },
    href := Opt.lit "about", activeClass := Opt.lit "active",
    textContent := Opt.null, innerHTML := Opt.null, template := Option.none }

/-- A fresh widget whose href is the function `contactFn`. -/
def fnWidget : LinkView Nat :=
  { core := { el := { content := Content.empty, classes := [] },
              _isActive := Option.none },
    href := Opt.fn contactFn, activeClass := Opt.lit "active",
    textContent := Opt.null, innerHTML := Opt.null, template := Option.none }

/-- A fresh widget whose activeClass is the function `classFn`. -/
def fnClassWidget : LinkView Nat :=
  { core := { el := { content := Content.empty, classes := [] },
              _isActive := Option.none },
    href := Opt.lit "about", activeClass := Opt.fn classFn,
    textContent := Opt.null, innerHTML := Opt.null, template := Option.none }

/-- An active widget whose activeClass is the function `classFn`. -/
def fnClassActiveWidget : LinkView Nat :=
  { core := { el := { content := Content.empty, classes := ["current"] },
              _isActive := some true },
    href := Opt.lit "about", activeClass := Opt.fn classFn,
    textContent := Opt.null, innerHTML := Opt.null, template := Option.none }

/-- A widget with all three content options set at once: `textContent: 'A'`,
`innerHTML: '<b>B</b>'` and a template. -/
def contentWidget : LinkView Nat :=
  { core := { el := { content := Content.empty, classes := [] },
              _isActive := Option.none },
    href := Opt.null, activeClass := Opt.lit "active",
    textContent := Opt.lit "A", innerHTML := Opt.lit "<b>B</b>",
    template := some tplFn }

/-- A widget with only `innerHTML` and a template set. -/
def htmlWidget : LinkView Nat :=
  { core := { el := { content := Content.empty, classes := [] },
              _isActive := Option.none },
    href := Opt.null, activeClass := Opt.lit "active",
    textContent := Opt.null, innerHTML := Opt.lit "<b>B</b>",
    template := some tplFn }

/-- A widget with only a template set. -/
def tplWidget : LinkView Nat :=
  { core := { el := { content := Content.empty, classes := [] },
              _isActive := Option.none },
    href := Opt.null, activeClass := Opt.lit "active",
    textContent := Opt.null, innerHTML := Opt.null,
    template := some tplFn }

/-- A widget with only `textContent: 'A'` set. -/
def textWidget : LinkView Nat :=
  { core := { el := { content := Content.empty, classes := [] },
              _isActive := Option.none },
    href := Opt.null, activeClass := Opt.lit "active",
    textContent := Opt.lit "A", innerHTML := Opt.null,
    template := Option.none }

/-- A widget with none of the content options set. -/
def bareWidget : LinkView Nat :=
  { core := { el := { content := Content.text "old", classes := [] },
              _isActive := Option.none },
    href := Opt.lit "about", activeClass := Opt.lit "active",
    textContent := Opt.null, innerHTML := Opt.null,
    template := Option.none }

/-- Constructor options supplying no activeClass. -/
def noClassOpts : CtorOptions Nat :=
  { href := some (Opt.lit "about"), activeClass := Option.none,
    textContent := Option.none, innerHTML := Option.none, template := Option.none }

/-- An empty constructor options object. -/
def noOpts : CtorOptions Nat :=
  { href := Option.none, activeClass := Option.none, textContent := Option.none,
    innerHTML := Option.none, template := Option.none }

/-- A not-yet-prevented click event. -/
def e0 : ClickEvent := { defaultPrevented := false }

/-- A history with no recorded navigation requests. -/
def h0 : HistoryState := { navigations := [] }

/-! ## The claims -/

/-- C1 counterexample: the claim says a route notification arriving while
`_isActive` is true and the fragment equals the resolved href is a no-op, but
on `activeAboutWidget` (active, href `about`, classes `[active]`) a
notification with fragment `about` changes `_isActive` and the class list:
the source's `else if (this._isActive)` branch fires because the first
branch requires `!this._isActive`. -/
theorem C1_counterexample :
    ¬ ((_onRoute 0 "about" activeAboutWidget).core._isActive =
          activeAboutWidget.core._isActive ∧
       (_onRoute 0 "about" activeAboutWidget).core.el.classes =
          activeAboutWidget.core.el.classes) := by
  decide

/-- C1 (amended): a route notification arriving while `_isActive` is false
and the fragment differs from the resolved href leaves the widget unchanged;
but one arriving while `_isActive` is true and the fragment equals the
resolved href is not a no-op: it sets `_isActive` to false and removes the
resolved active class. -/
theorem C1_onRoute_rows (env : Env) (route : String) (w : LinkView Env) :
    (isActive w = false → Opt.result env w.core w.href ≠ some route →
      _onRoute env route w = w) ∧
    (isActive w = true → Opt.result env w.core w.href = some route →
      (_onRoute env route w).core._isActive = some false ∧
      (_onRoute env route w).core.el.classes =
        removeClass (Opt.result env w.core w.activeClass) w.core.el.classes) := by
  constructor
  · intro h1 h2
    exact onRoute_noop env route w h1 h2
  · intro h1 _
    rw [onRoute_of_active env route w h1]
    exact ⟨rfl, rfl⟩

/-- C1 witness: the inactive/non-matching row is a no-op on `aboutWidget`,
and the active/matching row deactivates `activeAboutWidget`. -/
theorem C1_onRoute_rows_witness :
    _onRoute 0 "home" aboutWidget = aboutWidget ∧
    ((_onRoute 0 "about" activeAboutWidget).core._isActive = some false ∧
     (_onRoute 0 "about" activeAboutWidget).core.el.classes = []) := by
  constructor
  · exact (C1_onRoute_rows 0 "home" aboutWidget).1 (by decide) (by decide)
  · have h := (C1_onRoute_rows 0 "about" activeAboutWidget).2 (by decide) (by decide)
    exact ⟨h.1, by rw [h.2]; decide⟩

/-- C2: a route notification whose fragment equals the resolved href while
inactive activates the widget (`isActive()` becomes true) and adds the
resolved active class; one whose fragment differs while active deactivates it
and removes the resolved active class. -/
theorem C2_onRoute_toggles (env : Env) (route : String) (w : LinkView Env) :
    (Opt.result env w.core w.href = some route → isActive w = false →
      isActive (_onRoute env route w) = true ∧
      (_onRoute env route w).core._isActive = some true ∧
      (_onRoute env route w).core.el.classes =
        addClass (Opt.result env w.core w.activeClass) w.core.el.classes) ∧
    (Opt.result env w.core w.href ≠ some route → isActive w = true →
      isActive (_onRoute env route w) = false ∧
      (_onRoute env route w).core._isActive = some false ∧
      (_onRoute env route w).core.el.classes =
        removeClass (Opt.result env w.core w.activeClass) w.core.el.classes) := by
  constructor
  · intro h1 h2
    rw [onRoute_activate env route w h1 h2]
    exact ⟨rfl, rfl, rfl⟩
  · intro _ h2
    rw [onRoute_of_active env route w h2]
    exact ⟨rfl, rfl, rfl⟩

/-- C2 witness: the spec's scenario with `href: 'about'` — fragment `about`
activates and applies `active`; then fragment `home` deactivates and removes
it. -/
theorem C2_onRoute_toggles_witness :
    (isActive (_onRoute 0 "about" aboutWidget) = true ∧
     (_onRoute 0 "about" aboutWidget).core.el.classes = ["active"]) ∧
    (isActive (_onRoute 0 "home" activeAboutWidget) = false ∧
     (_onRoute 0 "home" activeAboutWidget).core.el.classes = []) := by
  constructor
  · have h := (C2_onRoute_toggles 0 "about" aboutWidget).1 (by decide) (by decide)
    exact ⟨h.1, by rw [h.2.2]; decide⟩
  · have h := (C2_onRoute_toggles 0 "home" activeAboutWidget).2 (by decide) (by decide)
    exact ⟨h.1, by rw [h.2.2]; decide⟩

/-- C3: render priority — truthy `textContent` sets the element text to its
resolved value; otherwise truthy `innerHTML` sets the markup to its resolved
value; otherwise a set `template` sets the markup to the template output.  At
most one of the three is honoured per render. -/
theorem C3_render_priority (env : Env) (w : LinkView Env) :
    (w.textContent.truthy = true →
      (render env w).core.el.content =
        Content.text ((Opt.result env w.core w.textContent).getD "")) ∧
    (w.textContent.truthy = false → w.innerHTML.truthy = true →
      (render env w).core.el.content =
        Content.html ((Opt.result env w.core w.innerHTML).getD "")) ∧
    (w.textContent.truthy = false → w.innerHTML.truthy = false →
      ∀ f, w.template = some f →
        (render env w).core.el.content = Content.html (f env w.core)) :=
  ⟨fun h => render_content_of_textContent env w h,
   fun h1 h2 => render_content_of_innerHTML env w h1 h2,
   fun h1 h2 f hf => render_content_of_template env w h1 h2 f hf⟩

/-- C3 witness: with `textContent: 'A'`, `innerHTML: '<b>B</b>'` and a
template all set, the element text is `A`; with only the latter two, the
markup is `<b>B</b>`; with only a template, the markup is its output. -/
theorem C3_render_priority_witness :
    (render 0 contentWidget).core.el.content = Content.text "A" ∧
    (render 0 htmlWidget).core.el.content = Content.html "<b>B</b>" ∧
    (render 0 tplWidget).core.el.content = Content.html "T" := by
  refine ⟨?_, ?_, ?_⟩
  · have h := (C3_render_priority 0 contentWidget).1 (by decide)
    rw [h]
    rfl
  · have h := (C3_render_priority 0 htmlWidget).2.1 (by decide) (by decide)
    rw [h]
    rfl
  · have h := (C3_render_priority 0 tplWidget).2.2 (by decide) (by decide) tplFn rfl
    rw [h]
    rfl


/-- C4: the click handler suppresses the browser's default action and records
exactly one navigation request carrying the href resolved at click time, with
`trigger: true`; for a function-valued href the function's return value is the
requested fragment. -/
theorem C4_onClick_navigates (env : Env) (w : LinkView Env) (e : ClickEvent)
    (hist : HistoryState) :
    (_onClick env w e hist).2.1.defaultPrevented = true ∧
    (_onClick env w e hist).2.2.navigations =
      hist.navigations ++ [(Opt.result env w.core w.href, true)] ∧
    (∀ f, w.href = Opt.fn f →
      (_onClick env w e hist).2.2.navigations =
        hist.navigations ++ [(some (f env w.core), true)]) := by
  refine ⟨rfl, rfl, ?_⟩
  intro f hf
  simp [_onClick, Opt.result, hf]

/-- C4 witness: clicking `fnWidget` (`href: () => 'contact'`) prevents the
default and requests navigation to `contact` with triggering enabled. -/
theorem C4_onClick_navigates_witness :
    (_onClick 0 fnWidget e0 h0).2.1.defaultPrevented = true ∧
    (_onClick 0 fnWidget e0 h0).2.2.navigations = [(some "contact", true)] := by
  have h := C4_onClick_navigates 0 fnWidget e0 h0
  refine ⟨h.1, ?_⟩
  rw [h.2.2 contactFn rfl]
  rfl

/-- C5: `attributes()` returns an object whose href field is the href option
resolved at call time — a literal passes through unchanged, and a function is
invoked with the widget (its call-time environment and state) and its return
value used. -/
theorem C5_attributes_href (env : Env) (w : LinkView Env) :
    (attributes env w).href = Opt.result env w.core w.href ∧
    (∀ s, w.href = Opt.lit s → (attributes env w).href = some s) ∧
    (∀ f, w.href = Opt.fn f → (attributes env w).href = some (f env w.core)) := by
  refine ⟨rfl, ?_, ?_⟩
  · intro s hs
    simp [attributes, Opt.result, hs]
  · intro f hf
    simp [attributes, Opt.result, hf]

/-- C5 witness: a literal href `about` passes through; the function href
`contactFn` resolves to `contact`. -/
theorem C5_attributes_href_witness :
    (attributes 0 aboutWidget).href = some "about" ∧
    (attributes 0 fnWidget).href = some "contact" := by
  constructor
  · exact (C5_attributes_href 0 aboutWidget).2.1 "about" rfl
  · have h := (C5_attributes_href 0 fnWidget).2.2 contactFn rfl
    rw [h]
    rfl

/-- C6: render is idempotent when the content options resolve to the same
values on both calls — rendering twice leaves the same element content as
rendering once.  (The hypotheses hold automatically for literal options; a
function option could in principle read the element state the first render
changed, which is exactly the "unchanged between calls" proviso.) -/
theorem C6_render_idempotent (env : Env) (w : LinkView Env)
    (ht : Opt.result env (render env w).core w.textContent =
          Opt.result env w.core w.textContent)
    (hh : Opt.result env (render env w).core w.innerHTML =
          Opt.result env w.core w.innerHTML)
    (hf : ∀ f, w.template = some f → f env (render env w).core = f env w.core) :
    (render env (render env w)).core.el.content = (render env w).core.el.content := by
  have hframe := render_frame_fields env w
  by_cases h1 : w.textContent.truthy = true
  · have h1b : (render env w).textContent.truthy = true := by
      rw [hframe.2.2.1]; exact h1
    rw [render_content_of_textContent env (render env w) h1b,
        render_content_of_textContent env w h1, hframe.2.2.1, ht]
  · have h1f : w.textContent.truthy = false := by simpa using h1
    have h1b : (render env w).textContent.truthy = false := by
      rw [hframe.2.2.1]; exact h1f
    by_cases h2 : w.innerHTML.truthy = true
    · have h2b : (render env w).innerHTML.truthy = true := by
        rw [hframe.2.2.2.1]; exact h2
      rw [render_content_of_innerHTML env (render env w) h1b h2b,
          render_content_of_innerHTML env w h1f h2, hframe.2.2.2.1, hh]
    · have h2f : w.innerHTML.truthy = false := by simpa using h2
      have h2b : (render env w).innerHTML.truthy = false := by
        rw [hframe.2.2.2.1]; exact h2f
      cases htempl : w.template with
      | none =>
          rw [render_of_none env w h1f h2f htempl,
              render_of_none env w h1f h2f htempl]
      | some f =>
          have htb : (render env w).template = some f := by
            rw [hframe.2.2.2.2.1]; exact htempl
          rw [render_content_of_template env (render env w) h1b h2b f htb,
              render_content_of_template env w h1f h2f f htempl, hf f htempl]

/-- C6 witness: rendering `textWidget` (literal `textContent: 'A'`) twice
leaves the same content as rendering it once. -/
theorem C6_render_idempotent_witness :
    (render 0 (render 0 textWidget)).core.el.content =
      (render 0 textWidget).core.el.content := by
  refine C6_render_idempotent 0 textWidget (by decide) (by decide) ?_
  intro f hf
  simp [textWidget] at hf

/-- C7: when `textContent`, `innerHTML` and `template` are all unset (falsy),
`render` is the identity on the widget — the element content is untouched;
and in every case `render` returns the widget itself (modelled by the result
agreeing with the input on every field other than the element content). -/
theorem C7_render_frame (env : Env) (w : LinkView Env) :
    (w.textContent.truthy = false → w.innerHTML.truthy = false →
      w.template = Option.none → render env w = w) ∧
    ((render env w).href = w.href ∧
     (render env w).activeClass = w.activeClass ∧
     (render env w).textContent = w.textContent ∧
     (render env w).innerHTML = w.innerHTML ∧
     (render env w).template = w.template ∧
     (render env w).core._isActive = w.core._isActive ∧
     (render env w).core.el.classes = w.core.el.classes) :=
  ⟨fun h1 h2 h3 => render_of_none env w h1 h2 h3, render_frame_fields env w⟩

/-- C7 witness: rendering `bareWidget` (no content options, existing element
text `old`) changes nothing. -/
theorem C7_render_frame_witness : render 0 bareWidget = bareWidget :=
  (C7_render_frame 0 bareWidget).1 (by decide) (by decide) rfl

/-- C8: a widget constructed without an `activeClass` option keeps the
prototype default `active`; a function-valued `activeClass` is re-resolved on
every route notification, so the class added on activation and removed on
deactivation is the function's value at that notification (its value on the
notification-time environment and widget state). -/
theorem C8_activeClass_default_and_dynamic (env : Env) (route : String)
    (opts : CtorOptions Env) (w : LinkView Env) :
    (opts.activeClass = Option.none →
      (LinkView.create opts).activeClass = Opt.lit "active") ∧
    (∀ f, w.activeClass = Opt.fn f →
      (Opt.result env w.core w.href = some route → isActive w = false →
        (_onRoute env route w).core.el.classes =
          addClass (some (f env w.core)) w.core.el.classes) ∧
      (isActive w = true →
        (_onRoute env route w).core.el.classes =
          removeClass (some (f env w.core)) w.core.el.classes)) := by
  constructor
  · intro h
    simp [LinkView.create, h]
  · intro f hf
    constructor
    · intro h1 h2
      rw [onRoute_activate env route w h1 h2]
      simp [hf, Opt.result]
    · intro h1
      rw [onRoute_of_active env route w h1]
      simp [hf, Opt.result]

/-- C8 witness: construction without `activeClass` yields the literal
`active`; a function `activeClass` contributes its current value both when
the class is added and when it is removed. -/
theorem C8_activeClass_default_and_dynamic_witness :
    (LinkView.create noClassOpts).activeClass = Opt.lit "active" ∧
    (_onRoute 0 "about" fnClassWidget).core.el.classes = ["current"] ∧
    (_onRoute 0 "other" fnClassActiveWidget).core.el.classes = [] := by
  have ha := C8_activeClass_default_and_dynamic 0 "about" noClassOpts fnClassWidget
  have hb := C8_activeClass_default_and_dynamic 0 "other" noClassOpts fnClassActiveWidget
  refine ⟨ha.1 rfl, ?_, ?_⟩
  · have h := (ha.2 classFn rfl).1 (by decide) (by decide)
    rw [h]
    decide
  · have h := (hb.2 classFn rfl).2 (by decide)
    rw [h]
    decide

/-- C9: the `_isActive` flag is mutated only by the route handler — `render`
leaves it unchanged, and the click handler leaves the whole widget unchanged
(in particular `_isActive`).  `attributes` and `isActive` are pure functions
returning an attributes object and a boolean; by their types they cannot
touch the widget at all. -/
theorem C9_isActive_frame (env : Env) (w : LinkView Env) (e : ClickEvent)
    (hist : HistoryState) :
    (render env w).core._isActive = w.core._isActive ∧
    (_onClick env w e hist).1 = w ∧
    (_onClick env w e hist).1.core._isActive = w.core._isActive :=
  ⟨(render_frame_fields env w).2.2.2.2.2.1, rfl, rfl⟩

/-- C10: a freshly constructed widget is inactive — `isActive()` is false
before any route notification (the flag starts out `undefined` and `!!`
coerces it to false); and in every state `isActive()` is the boolean coercion
of the internal flag. -/
theorem C10_isActive_initial (opts : CtorOptions Env) (w : LinkView Env) :
    isActive (LinkView.create opts) = false ∧
    (w.core._isActive = Option.none → isActive w = false) ∧
    (∀ b, w.core._isActive = some b → isActive w = b) := by
  refine ⟨rfl, ?_, ?_⟩
  · intro hn
    simp [isActive, hn, jsTruthy]
  · intro b hb
    simp [isActive, hb, jsTruthy]

/-- C10 witness: a widget built from empty options is inactive; `fnWidget`
(flag still `undefined`) reports false; `activeAboutWidget` (flag true)
reports true. -/
theorem C10_isActive_initial_witness :
    isActive (LinkView.create noOpts) = false ∧
    isActive fnWidget = false ∧
    isActive activeAboutWidget = true := by
  have ha := C10_isActive_initial noOpts fnWidget
  have hb := C10_isActive_initial noOpts activeAboutWidget
  exact ⟨ha.1, ha.2.1 rfl, hb.2.2 true rfl⟩

end BackboneLinkView
